import Mathlib

/-!
Verification development for the PPE detection system
(`app/core/detector.py`, `app/utils/camera.py`, `app.py`, `config/config.py`).

The Python code is shallowly embedded: dictionaries with the fixed key set
{helmet, safety_glasses, gloves} become a structure over the closed
category type `PPECat`; floats carrying detector confidences are embedded
as rationals (the code only compares and copies them, never does float
arithmetic whose rounding could matter); in-place image mutation through
OpenCV drawing calls is embedded as explicit state passing over a store of
image buffers; fallible Python operations (attribute lookup on the cv2
module, exceptions crossing the generator) are embedded with `Except` /
explicit event outcomes.
-/

namespace PPE

/-- The three PPE categories: the fixed key set of the `detected` dictionary
built by `PPEDetector._parse_detections` and the members of
`PPEDetector.required_ppe`. -/
inductive PPECat where
  | helmet
  | safety_glasses
  | gloves
deriving DecidableEq, Repr

/-- The dictionary key / required-list entry for each category, exactly the
strings in `detector.py`. -/
def PPECat.name : PPECat → String
  | .helmet => "helmet"
  | .safety_glasses => "safety_glasses"
  | .gloves => "gloves"

/-- The required list `self.required_ppe = ["helmet", "safety_glasses", "gloves"]`
(`detector.py` line 37). -/
def required_ppe : List PPECat := [.helmet, .safety_glasses, .gloves]

/-- Membership test `class_name in detected`: the parse dictionary's keys are
exactly the three category names, so the test resolves a string to a
category or fails. -/
def catOfName (s : String) : Option PPECat :=
  if s = "helmet" then some .helmet
  else if s = "safety_glasses" then some .safety_glasses
  else if s = "gloves" then some .gloves
  else none

/-- One character of the normalization: lowercase it, then turn a space
into an underscore. -/
def normChar (c : Char) : Char :=
  let lc := c.toLower
  if lc = ' ' then '_' else lc

/-- Normalization `results.names[class_id].lower().replace(" ", "_")`
(`detector.py` line 71), applied character by character: lowering acts per
character and the replace pattern is the single character `" "`, so the
composition is exactly this map over the string's characters. -/
def normalizeName (s : String) : String :=
  String.mk (s.data.map normChar)

/-- Bounding box in xyxy order: the four floats of `box.xyxy[0].tolist()`,
which `annotate_frame` later unpacks as `x1, y1, x2, y2`. -/
structure BBox where
  x1 : ℚ
  y1 : ℚ
  x2 : ℚ
  y2 : ℚ
deriving DecidableEq, Repr

/-- One raw YOLO box: class id `int(box.cls[0])`, confidence
`float(box.conf[0])`, and the xyxy coordinates `box.xyxy[0].tolist()`.
Confidences and coordinates are embedded as rationals. -/
structure RawDetection where
  cls : Nat
  conf : ℚ
  bbox : BBox
deriving DecidableEq, Repr

/-- Per-category entry of the `detected` dictionary:
`{"detected": ..., "confidence": ..., "boxes": [...]}`. A box entry keeps
the pair (confidence, bbox) appended by `_parse_detections`. -/
structure CatState where
  detected : Bool
  confidence : ℚ
  boxes : List (ℚ × BBox)
deriving DecidableEq, Repr

/-- The initial per-category entry
`{"detected": False, "confidence": 0.0, "boxes": []}`. -/
def emptyCatState : CatState := ⟨false, 0, []⟩

/-- The `detected` dictionary of `_parse_detections`, with its fixed keys
helmet, safety_glasses, gloves (in insertion order). -/
structure DetectedItems where
  helmet : CatState
  safety_glasses : CatState
  gloves : CatState
deriving DecidableEq, Repr

/-- The freshly initialized `detected` dictionary. -/
def emptyDetected : DetectedItems := ⟨emptyCatState, emptyCatState, emptyCatState⟩

/-- Dictionary read `detected[class_name]`. -/
def DetectedItems.get (d : DetectedItems) : PPECat → CatState
  | .helmet => d.helmet
  | .safety_glasses => d.safety_glasses
  | .gloves => d.gloves

/-- Dictionary write `detected[class_name] = st`. -/
def DetectedItems.set (d : DetectedItems) : PPECat → CatState → DetectedItems
  | .helmet, st => { d with helmet := st }
  | .safety_glasses, st => { d with safety_glasses := st }
  | .gloves, st => { d with gloves := st }

/-- Category a raw box lands in: its class name resolved through the
model's name table and normalized, then matched against the dictionary's
keys. -/
def boxCat (names : Nat → String) (b : RawDetection) : Option PPECat :=
  catOfName (normalizeName (names b.cls))

/-- Update of one category entry by one matching box (`detector.py` lines
74-82): mark it detected, append the (confidence, bbox) entry, and raise
the stored best confidence when the new confidence is strictly greater
than the stored one (the strict `>` keeps the stored value on a tie). -/
def updateCatState (st : CatState) (b : RawDetection) : CatState :=
  let st' := { st with
    detected := true
    boxes := st.boxes ++ [(b.conf, b.bbox)] }
  if b.conf > st'.confidence then { st' with confidence := b.conf } else st'

/-- The body of the `for box in results.boxes` loop of
`PPEDetector._parse_detections` (`detector.py` lines 68-82): resolve and
normalize the class name; if it is a dictionary key, update that
category's entry. `names` embeds the model's class-name table
`results.names`. -/
def processBox (names : Nat → String) (d : DetectedItems) (b : RawDetection) :
    DetectedItems :=
  match boxCat names b with
  | none => d
  | some c => d.set c (updateCatState (d.get c) b)

/-- Parsing `PPEDetector._parse_detections`: fold the loop body over the raw boxes in
detection order, starting from the freshly initialized dictionary. -/
def parseDetections (names : Nat → String) (boxes : List RawDetection) :
    DetectedItems :=
  boxes.foldl (processBox names) emptyDetected

/-- Conjunction `all(detected_items[item]["detected"] for item in required)` — the
conjunction of `PPEDetector._check_compliance`, generalized over the
required list it iterates (`self.required_ppe`). -/
def checkComplianceOver (required : List PPECat) (d : DetectedItems) : Bool :=
  required.all (fun item => (d.get item).detected)

/-- Compliance `PPEDetector._check_compliance` with the detector's fixed
`self.required_ppe`. -/
def checkCompliance (d : DetectedItems) : Bool :=
  checkComplianceOver required_ppe d

/-- Missing items `PPEDetector._get_missing_items`: the required items whose `detected`
flag is false, in `required_ppe` order. -/
def getMissingItems (d : DetectedItems) : List PPECat :=
  required_ppe.filter (fun item => !(d.get item).detected)

/-- Result dictionary of `PPEDetector.detect` (`detector.py` lines 53-58),
without the opaque `raw_results` handle. -/
structure DetectionResults where
  detected_items : DetectedItems
  compliance_status : Bool
  missing_items : List PPECat
deriving DecidableEq, Repr

/-- Detection `PPEDetector.detect`: the model inference itself is the
external boundary, so it is abstracted as the raw box list it returned
together with the class-name table; the aggregation downstream of it is the
code's. -/
def detect (names : Nat → String) (boxes : List RawDetection) :
    DetectionResults :=
  let detected_items := parseDetections names boxes
  { detected_items := detected_items
    compliance_status := checkCompliance detected_items
    missing_items := getMissingItems detected_items }

/-- Error raised by `PPEDetector.__init__`: the only construction-time
failure in the source is `FileNotFoundError` when the model path does not
exist (`detector.py` lines 31-32). -/
inductive DetectorInitError where
  | fileNotFound (path : String)
deriving DecidableEq, Repr

/-- Fields stored by a successfully constructed `PPEDetector`. The `YOLO`
model handle is the external boundary and is not part of the state. -/
structure PPEDetectorState where
  model_path : String
  confidence_threshold : ℚ
  device : String
  required_ppe : List PPECat
deriving DecidableEq, Repr

/-- Constructor `PPEDetector.__init__` (`detector.py` lines 13-37):
`modelPathExists` embeds the filesystem check `self.model_path.exists()`.
The threshold is stored as given — the body contains no range check on it —
and `required_ppe` is hardcoded to the fixed three-element list. -/
def PPEDetector.init (modelPathExists : Bool) (model_path : String)
    (confidence_threshold : ℚ) (device : String) :
    Except DetectorInitError PPEDetectorState :=
  if modelPathExists = false then
    .error (.fileNotFound model_path)
  else
    .ok { model_path := model_path
          confidence_threshold := confidence_threshold
          device := device
          required_ppe := [.helmet, .safety_glasses, .gloves] }

/-- Camera wrapper of `app/utils/camera.py`: `cap` is `None` until
`start()` succeeds; an opened capture handle is abstracted as a `Nat` id. -/
structure Camera where
  source : Int
  width : Nat
  height : Nat
  fps : Nat
  cap : Option Nat
deriving DecidableEq, Repr

/-- Read `Camera.read` (`camera.py` lines 45-50): with `self.cap is None`
it returns `(False, None)` without touching the underlying capture;
otherwise it defers to the external `self.cap.read()`, embedded as the
`capRead` parameter (frames abstracted as `Nat` ids). -/
def Camera.read (capRead : Nat → Bool × Option Nat) (cam : Camera) :
    Bool × Option Nat :=
  match cam.cap with
  | none => (false, none)
  | some h => capRead h

/-- Release `Camera.release` (`camera.py` lines 52-55): the list of
`cap.release()` calls it issues — empty when `self.cap is None`. -/
def Camera.release (cam : Camera) : List Nat :=
  match cam.cap with
  | none => []
  | some h => [h]

/-- ASCII bytes of a literal, for the multipart byte stream built in
`generate_frames`. -/
def strBytes (s : String) : List Nat :=
  s.toList.map Char.toNat

/-- One multipart chunk as `generate_frames` yields it (`app.py` lines
85-86): the boundary marker, the content-type line, the blank separator
line, the JPEG payload bytes, and the trailing separator. -/
def frameChunk (payload : List Nat) : List Nat :=
  strBytes "--frame\r\n" ++ strBytes "Content-Type: image/jpeg\r\n\r\n" ++
    payload ++ strBytes "\r\n"

/-- Byte-sequence test: does `pat` start `l`? -/
def hasPrefixBytes : List Nat → List Nat → Bool
  | [], _ => true
  | _ :: _, [] => false
  | a :: pat, b :: l => a == b && hasPrefixBytes pat l

/-- Byte-sequence test: does `pat` occur contiguously inside `l`? -/
def hasInfixBytes (pat : List Nat) : List Nat → Bool
  | [] => hasPrefixBytes pat []
  | b :: l => hasPrefixBytes pat (b :: l) || hasInfixBytes pat l

/-- Removal of a known leading byte sequence, `none` when it is not
there. -/
def stripPrefixBytes : List Nat → List Nat → Option (List Nat)
  | [], l => some l
  | _ :: _, [] => none
  | a :: pat, b :: l => if a = b then stripPrefixBytes pat l else none

/-- Removal of a known trailing byte sequence, `none` when it is not
there. -/
def stripSuffixBytes (pat l : List Nat) : Option (List Nat) :=
  (stripPrefixBytes pat.reverse l.reverse).map List.reverse

/-- Decoder for one multipart chunk: strip the fixed chunk header
(boundary marker, content-type line, blank separator) and the trailing
separator, recovering the image payload. The chunk carries no
payload-length declaration; it is delimited purely by this fixed
structure. -/
def chunkPayload (c : List Nat) : Option (List Nat) :=
  match stripPrefixBytes
      (strBytes "--frame\r\n" ++ strBytes "Content-Type: image/jpeg\r\n\r\n") c with
  | none => none
  | some rest => stripSuffixBytes (strBytes "\r\n") rest

/-- One iteration of the `while True` loop of `generate_frames`, as the
environment drives it: the camera read fails; or the consumer closes the
generator (Python raises `GeneratorExit` inside the suspended generator);
or the read succeeds and the per-frame pipeline
(`detect` / `annotate_frame` / `imencode`) produces the encoded payload
which the consumer takes from `yield`; or the read succeeds and the
per-frame pipeline raises. -/
inductive LoopEvent where
  | readFail
  | cancel
  | frameOk (payload : List Nat)
  | frameErr
deriving DecidableEq, Repr

/-- Body of the `try`-protected `while True` loop of `generate_frames`
(`app.py` lines 73-91), run on a finite event script (an exhausted script
stands for the stream ending: the next read fails). Returns the list of
yielded chunks and the number of `camera.release()` calls: every
termination of the loop — read failure, consumer cancellation, per-frame
exception — runs the `finally` block, which releases once. -/
def streamRun : List LoopEvent → List (List Nat) × Nat
  | [] => ([], 1)
  | .readFail :: _ => ([], 1)
  | .cancel :: _ => ([], 1)
  | .frameErr :: _ => ([], 1)
  | .frameOk p :: rest =>
      let r := streamRun rest
      (frameChunk p :: r.1, r.2)

/-- Generator `generate_frames` (`app.py` lines 59-91): `initOk` embeds the
`init_detector()` result and `openOk` the `camera.isOpened()` check. When
either fails the function returns before entering the `try` block — on
those two paths no `camera.release()` call is made. Otherwise the
`try`/`finally`-protected loop runs. -/
def generateFrames (initOk openOk : Bool) (events : List LoopEvent) :
    List (List Nat) × Nat :=
  if initOk = false then ([], 0)
  else if openOk = false then ([], 0)
  else streamRun events

/-- Font constants exported by the `cv2` module, from OpenCV's
`HersheyFonts` enumeration (`FONT_HERSHEY_SIMPLEX` .. `FONT_HERSHEY_SCRIPT_COMPLEX`
valued 0..7, plus `FONT_ITALIC` = 16). An attribute access on `cv2` for a
name outside the module raises `AttributeError`; in particular the module
has no `FONT_HERSHEY_BOLD` attribute, although `detector.py` line 139
reads one. -/
def cv2FontAttr (attr : String) : Option Nat :=
  if attr = "FONT_HERSHEY_SIMPLEX" then some 0
  else if attr = "FONT_HERSHEY_PLAIN" then some 1
  else if attr = "FONT_HERSHEY_DUPLEX" then some 2
  else if attr = "FONT_HERSHEY_COMPLEX" then some 3
  else if attr = "FONT_HERSHEY_TRIPLEX" then some 4
  else if attr = "FONT_HERSHEY_COMPLEX_SMALL" then some 5
  else if attr = "FONT_HERSHEY_SCRIPT_SIMPLEX" then some 6
  else if attr = "FONT_HERSHEY_SCRIPT_COMPLEX" then some 7
  else if attr = "FONT_ITALIC" then some 16
  else none

/-- Python exception crossing the embedded calls. -/
inductive PyErr where
  | attributeError (attr : String)
deriving DecidableEq, Repr

/-- Text drawn by `cv2.putText`: either the per-box f-string
`f"{item}: {box_data['confidence']:.2f}"` (kept as its category and exact
confidence value; the two-decimal float rendering is display formatting)
or a literal such as `"COMPLIANT"`. -/
inductive TextContent where
  | boxLabel (item : PPECat) (conf : ℚ)
  | lit (s : String)
deriving DecidableEq, Repr

/-- One OpenCV drawing call recorded against an image buffer:
`cv2.rectangle(img, (x1,y1), (x2,y2), color, thickness)` or
`cv2.putText(img, text, (x,y), font, scale, color, thickness)`.
Colors are the BGR integer triples of the source. -/
inductive DrawOp where
  | rect (x1 y1 x2 y2 : Int) (color : Nat × Nat × Nat) (thickness : Int)
  | text (content : TextContent) (x y : Int) (font : Nat) (scale : ℚ)
      (color : Nat × Nat × Nat) (thickness : Nat)
deriving DecidableEq, Repr

/-- A numpy image buffer: its shape (`frame.shape[0]` rows,
`frame.shape[1]` columns), an abstract pixel payload id, and the drawing
calls applied to it in order. Two buffers are byte-for-byte equal exactly
when these components are equal. -/
structure Image where
  rows : Nat
  cols : Nat
  data : Nat
  ops : List DrawOp
deriving DecidableEq, Repr

/-- The heap of live image buffers, addressed by index: in-place OpenCV
mutation is embedded as explicit store passing. -/
abbrev Store := List Image

/-- Update of the buffer at index `i` in place, all other buffers
untouched. -/
def storeModify : Store → Nat → (Image → Image) → Store
  | [], _, _ => []
  | img :: rest, 0, f => f img :: rest
  | img :: rest, n + 1, f => img :: storeModify rest n f

/-- Lookup of the buffer at index `i` (theorems only use it at in-range
indices). -/
def storeGet (s : Store) (i : Nat) : Image :=
  (s.get? i).getD ⟨0, 0, 0, []⟩

/-- Append of a drawing call to the buffer at index `i`: the in-place
mutation performed by `cv2.rectangle` / `cv2.putText`. -/
def drawOn (s : Store) (i : Nat) (op : DrawOp) : Store :=
  storeModify s i (fun img => { img with ops := img.ops ++ [op] })

/-- Truncation toward zero, Python's `int()` on a float. -/
def pyInt (q : ℚ) : Int :=
  q.num.tdiv (q.den : Int)

/-- Inner loop `for box_data in data["boxes"]` of `annotate_frame`
(`detector.py` lines 122-133): draw the rectangle, then `cv2.putText` with
`cv2.FONT_HERSHEY_SIMPLEX` — the font attribute is looked up on each call
and would raise before the text is drawn if it were missing. -/
def drawBoxList (item : PPECat) (color : Nat × Nat × Nat) :
    List (ℚ × BBox) → Store → Nat → Store × Option PyErr
  | [], s, _ => (s, none)
  | (conf, bb) :: rest, s, i =>
      let x1 := pyInt bb.x1
      let y1 := pyInt bb.y1
      let x2 := pyInt bb.x2
      let y2 := pyInt bb.y2
      let s := drawOn s i (.rect x1 y1 x2 y2 color 2)
      match cv2FontAttr "FONT_HERSHEY_SIMPLEX" with
      | none => (s, some (.attributeError "FONT_HERSHEY_SIMPLEX"))
      | some font =>
          let s := drawOn s i
            (.text (.boxLabel item conf) x1 (y1 - 10) font (1 / 2) color 2)
          drawBoxList item color rest s i

/-- Outer loop `for item, data in detection_results["detected_items"].items()`
of `annotate_frame` (`detector.py` lines 116-133), in the dictionary's
insertion order; the box color is green when the category was detected and
red otherwise. -/
def drawCategories (d : DetectedItems) :
    List PPECat → Store → Nat → Store × Option PyErr
  | [], s, _ => (s, none)
  | item :: rest, s, i =>
      let data := d.get item
      let color : Nat × Nat × Nat :=
        if data.detected then (0, 255, 0) else (0, 0, 255)
      match drawBoxList item color data.boxes s i with
      | (s, some e) => (s, some e)
      | (s, none) => drawCategories d rest s i

/-- Annotation `PPEDetector.annotate_frame` (`detector.py` lines 100-143):
copy the input frame into a fresh buffer, draw every category's boxes and
labels on the copy, draw the filled status banner rectangle across the full
input-frame width, then draw the status text — whose font constant
`cv2.FONT_HERSHEY_BOLD` is looked up on the `cv2` module at that point.
Returns the store (mutations survive an exception) and either the fresh
buffer's index or the exception. -/
def annotate_frame (s : Store) (frame : Nat) (results : DetectionResults) :
    Store × Except PyErr Nat :=
  let img := storeGet s frame
  let annotated := s.length
  let s := s ++ [img]
  match drawCategories results.detected_items
      [.helmet, .safety_glasses, .gloves] s annotated with
  | (s, some e) => (s, .error e)
  | (s, none) =>
      let status := if results.compliance_status then "COMPLIANT" else "NON-COMPLIANT"
      let status_color : Nat × Nat × Nat :=
        if results.compliance_status then (0, 255, 0) else (0, 0, 255)
      let s := drawOn s annotated (.rect 0 0 (img.cols : Int) 60 status_color (-1))
      match cv2FontAttr "FONT_HERSHEY_BOLD" with
      | none => (s, .error (.attributeError "FONT_HERSHEY_BOLD"))
      | some font =>
          (drawOn s annotated
            (.text (.lit status) 20 40 font (6 / 5) (255, 255, 255) 3), .ok annotated)

/-- Confidences of the boxes the parse assigns to category `c`, in
detection order. -/
def matchConfs (names : Nat → String) (c : PPECat) (ds : List RawDetection) : List ℚ :=
  ds.filterMap fun b => if boxCat names b = some c then some b.conf else none

/-- One step of the best-confidence update: keep the stored value unless
the new confidence is strictly greater. -/
def confStep (acc x : ℚ) : ℚ :=
  if x > acc then x else acc

/-- Rational 0.3, in numerator/denominator form so concrete evaluations
stay kernel-computable. -/
def q03 : ℚ := ⟨3, 10, by decide, by decide⟩

/-- Rational 0.5. -/
def q05 : ℚ := ⟨1, 2, by decide, by decide⟩

/-- Rational 0.81. -/
def q081 : ℚ := ⟨81, 100, by decide, by decide⟩

/-- Rational 0.9. -/
def q09 : ℚ := ⟨9, 10, by decide, by decide⟩

/-- Rational 1.5: a confidence threshold outside the [0,1] range. -/
def q15 : ℚ := ⟨3, 2, by decide, by decide⟩

/-- Concrete class-name table: every class id resolves to "helmet". -/
def exNames1 : Nat → String := fun _ => "helmet"

/-- Concrete raw detections with confidences 0.3, 0.81, 0.5 — the spec's
best-confidence example. -/
def exDs1 : List RawDetection :=
  [⟨0, q03, ⟨0, 0, 1, 1⟩⟩, ⟨0, q081, ⟨0, 0, 1, 1⟩⟩, ⟨0, q05, ⟨0, 0, 1, 1⟩⟩]

/-- Concrete class-name table: class 0 is "gloves", the rest "helmet". -/
def exNames2 : Nat → String := fun n => if n = 0 then "gloves" else "helmet"

/-- Concrete raw detections arriving gloves-then-helmet. -/
def exDs2 : List RawDetection :=
  [⟨0, q05, ⟨0, 0, 1, 1⟩⟩, ⟨1, q09, ⟨2, 2, 3, 3⟩⟩]

/-- The same two detections arriving helmet-then-gloves. -/
def exDs2r : List RawDetection :=
  [⟨1, q09, ⟨2, 2, 3, 3⟩⟩, ⟨0, q05, ⟨0, 0, 1, 1⟩⟩]

/-- Concrete one-box detection list: a single helmet at confidence 0.9. -/
def exDsHelmet : List RawDetection := [⟨0, q09, ⟨10, 20, 110, 220⟩⟩]

/-- Concrete 640x480 input image buffer. -/
def exImg : Image := ⟨480, 640, 7, []⟩

/-- Concrete store holding the one input buffer. -/
def exStore : Store := [exImg]

/-- Concrete 200x100 input image buffer in its own store. -/
def exStore2 : Store := [⟨100, 200, 3, []⟩]

/-- Concrete unstarted camera: defaults of `Camera.__init__`, `cap` still
`None`. -/
def exCam : Camera := ⟨0, 640, 480, 30, none⟩

/-- Concrete behavior for an underlying opened capture handle. -/
def exCapRead : Nat → Bool × Option Nat := fun h => (true, some h)

/-! Helper lemmas about the embedded operations, shared by the claim
theorems below. -/

theorem DetectedItems.get_set_same (d : DetectedItems) (c : PPECat) (st : CatState) :
    (d.set c st).get c = st := by
  cases c <;> rfl

theorem DetectedItems.get_set_ne (d : DetectedItems) {c c' : PPECat} (st : CatState)
    (h : c' ≠ c) : (d.set c' st).get c = d.get c := by
  cases c <;> cases c' <;> first
    | rfl
    | exact absurd rfl h

theorem emptyDetected_get (c : PPECat) : emptyDetected.get c = emptyCatState := by
  cases c <;> rfl

theorem processBox_get (names : Nat → String) (d : DetectedItems)
    (b : RawDetection) (c : PPECat) :
    (processBox names d b).get c =
      if boxCat names b = some c then updateCatState (d.get c) b else d.get c := by
  unfold processBox
  cases h : boxCat names b with
  | none => simp [h]
  | some c' =>
      by_cases hc : c' = c
      · subst hc
        simp [DetectedItems.get_set_same]
      · rw [if_neg (by simp [hc]), DetectedItems.get_set_ne _ _ hc]

theorem parse_fold_detected (names : Nat → String) (c : PPECat) :
    ∀ (ds : List RawDetection) (d : DetectedItems),
      ((ds.foldl (processBox names) d).get c).detected
        = ((d.get c).detected || ds.any fun b => decide (boxCat names b = some c))
  | [], d => by simp
  | b :: ds, d => by
      rw [List.foldl_cons, parse_fold_detected names c ds, List.any_cons]
      by_cases h : boxCat names b = some c
      · simp [processBox_get, h, updateCatState]
        split <;> simp
      · simp [processBox_get, h]

theorem parse_detected (names : Nat → String) (ds : List RawDetection) (c : PPECat) :
    ((parseDetections names ds).get c).detected
      = ds.any fun b => decide (boxCat names b = some c) := by
  rw [parseDetections, parse_fold_detected, emptyDetected_get]
  rfl

theorem parse_fold_confidence (names : Nat → String) (c : PPECat) :
    ∀ (ds : List RawDetection) (d : DetectedItems),
      ((ds.foldl (processBox names) d).get c).confidence
        = (matchConfs names c ds).foldl confStep ((d.get c).confidence)
  | [], d => by simp [matchConfs]
  | b :: ds, d => by
      rw [List.foldl_cons, parse_fold_confidence names c ds]
      by_cases h : boxCat names b = some c
      · simp [processBox_get, h, updateCatState, matchConfs, confStep]
        split <;> simp [*]
      · simp [processBox_get, h, matchConfs]

theorem parse_fold_boxes (names : Nat → String) (c : PPECat) :
    ∀ (ds : List RawDetection) (d : DetectedItems),
      ((ds.foldl (processBox names) d).get c).boxes
        = (d.get c).boxes ++ ds.filterMap
            (fun b => if boxCat names b = some c then some (b.conf, b.bbox) else none)
  | [], d => by simp
  | b :: ds, d => by
      rw [List.foldl_cons, parse_fold_boxes names c ds]
      by_cases h : boxCat names b = some c
      · simp [processBox_get, h, updateCatState]
        split <;> simp
      · simp [processBox_get, h]

theorem parse_boxes_map_fst (names : Nat → String) (ds : List RawDetection) (c : PPECat) :
    ((parseDetections names ds).get c).boxes.map Prod.fst = matchConfs names c ds := by
  rw [parseDetections, parse_fold_boxes, emptyDetected_get]
  show (ds.filterMap _).map Prod.fst = _
  induction ds with
  | nil => rfl
  | cons b ds ih =>
      by_cases h : boxCat names b = some c
      · simpa [matchConfs, List.filterMap_cons, h] using ih
      · simpa [matchConfs, List.filterMap_cons, h] using ih

theorem confStep_foldl_spec (l : List ℚ) :
    ∀ a : ℚ, (l.foldl confStep a = a ∨ l.foldl confStep a ∈ l)
      ∧ a ≤ l.foldl confStep a
      ∧ ∀ x ∈ l, x ≤ l.foldl confStep a := by
  induction l with
  | nil => intro a; simp
  | cons x l ih =>
      intro a
      have hstep : a ≤ confStep a x ∧ x ≤ confStep a x := by
        unfold confStep
        split
        · exact ⟨le_of_lt (by assumption), le_refl x⟩
        · exact ⟨le_refl a, le_of_not_lt (by assumption)⟩
      have hxcases : confStep a x = a ∨ confStep a x = x := by
        unfold confStep
        split
        · exact Or.inr rfl
        · exact Or.inl rfl
      obtain ⟨hmem, hle, hall⟩ := ih (confStep a x)
      refine ⟨?_, le_trans hstep.1 hle, ?_⟩
      · rcases hmem with hm | hm
        · rcases hxcases with hx | hx
          · exact Or.inl (by rw [List.foldl_cons, hm, hx])
          · exact Or.inr (by rw [List.foldl_cons, hm, hx]; exact List.mem_cons_self x l)
        · exact Or.inr (List.mem_cons_of_mem x hm)
      · intro y hy
        rcases List.mem_cons.mp hy with hx | hmem'
        · subst hx
          exact le_trans hstep.2 hle
        · exact hall y hmem'

theorem catOfName_eq_some_iff (s : String) (c : PPECat) :
    catOfName s = some c ↔ s = c.name := by
  cases c <;> unfold catOfName <;> split_ifs <;> simp_all [PPECat.name]

theorem streamRun_release (events : List LoopEvent) : (streamRun events).2 = 1 := by
  induction events with
  | nil => rfl
  | cons e rest ih => cases e <;> simp [streamRun, ih]

theorem storeModify_length :
    ∀ (s : Store) (j : Nat) (f : Image → Image), (storeModify s j f).length = s.length
  | [], _, _ => rfl
  | _ :: rest, 0, _ => rfl
  | _ :: rest, j + 1, f => by
      simp [storeModify, storeModify_length rest j f]

theorem storeModify_getElem_ne :
    ∀ (s : Store) (j i : Nat) (f : Image → Image), i ≠ j →
      (storeModify s j f)[i]? = s[i]?
  | [], _, _, _, _ => rfl
  | img :: rest, 0, 0, f, h => absurd rfl h
  | img :: rest, 0, i + 1, f, _ => by simp [storeModify]
  | img :: rest, j + 1, 0, f, _ => by simp [storeModify]
  | img :: rest, j + 1, i + 1, f, h => by
      simp only [storeModify, List.getElem?_cons_succ]
      exact storeModify_getElem_ne rest j i f (by omega)

theorem drawOn_length (s : Store) (j : Nat) (op : DrawOp) :
    (drawOn s j op).length = s.length :=
  storeModify_length s j _

theorem drawOn_getElem_ne (s : Store) (j i : Nat) (op : DrawOp) (h : i ≠ j) :
    (drawOn s j op)[i]? = s[i]? :=
  storeModify_getElem_ne s j i _ h

theorem cv2FontAttr_simplex : cv2FontAttr "FONT_HERSHEY_SIMPLEX" = some 0 := by
  rfl

theorem cv2FontAttr_bold : cv2FontAttr "FONT_HERSHEY_BOLD" = none := by
  rfl

theorem drawBoxList_spec (item : PPECat) (color : Nat × Nat × Nat) :
    ∀ (boxes : List (ℚ × BBox)) (s : Store) (j : Nat),
      (drawBoxList item color boxes s j).2 = none
      ∧ (drawBoxList item color boxes s j).1.length = s.length
      ∧ ∀ i, i ≠ j → (drawBoxList item color boxes s j).1[i]? = s[i]?
  | [], s, j => ⟨rfl, rfl, fun _ _ => rfl⟩
  | (conf, bb) :: rest, s, j => by
      simp only [drawBoxList, cv2FontAttr_simplex]
      refine ⟨(drawBoxList_spec item color rest _ j).1, ?_, ?_⟩
      · rw [(drawBoxList_spec item color rest _ j).2.1, drawOn_length, drawOn_length]
      · intro i hi
        rw [(drawBoxList_spec item color rest _ j).2.2 i hi,
          drawOn_getElem_ne _ _ _ _ hi, drawOn_getElem_ne _ _ _ _ hi]

theorem drawCategories_spec (d : DetectedItems) :
    ∀ (cats : List PPECat) (s : Store) (j : Nat),
      (drawCategories d cats s j).2 = none
      ∧ (drawCategories d cats s j).1.length = s.length
      ∧ ∀ i, i ≠ j → (drawCategories d cats s j).1[i]? = s[i]?
  | [], s, j => ⟨rfl, rfl, fun _ _ => rfl⟩
  | item :: rest, s, j => by
      obtain ⟨hb1, hb2, hb3⟩ := drawBoxList_spec item
        (if (d.get item).detected then (0, 255, 0) else (0, 0, 255))
        (d.get item).boxes s j
      simp only [drawCategories]
      rcases hdb : drawBoxList item
          (if (d.get item).detected then (0, 255, 0) else (0, 0, 255))
          (d.get item).boxes s j with ⟨s2, e2⟩
      rw [hdb] at hb1 hb2 hb3
      simp only at hb1 hb2
      subst hb1
      obtain ⟨hc1, hc2, hc3⟩ := drawCategories_spec d rest s2 j
      refine ⟨hc1, ?_, ?_⟩
      · rw [hc2]
        exact hb2
      · intro i hi
        rw [hc3 i hi]
        exact hb3 i hi

theorem stripPrefixBytes_append :
    ∀ (pat rest : List Nat), stripPrefixBytes pat (pat ++ rest) = some rest
  | [], rest => rfl
  | a :: pat, rest => by
      simp [stripPrefixBytes, stripPrefixBytes_append pat rest]

theorem stripSuffixBytes_append (pat rest : List Nat) :
    stripSuffixBytes pat (rest ++ pat) = some rest := by
  unfold stripSuffixBytes
  rw [List.reverse_append, stripPrefixBytes_append]
  simp

theorem chunkPayload_frameChunk (p : List Nat) :
    chunkPayload (frameChunk p) = some p := by
  unfold chunkPayload frameChunk
  rw [show strBytes "--frame\r\n" ++ strBytes "Content-Type: image/jpeg\r\n\r\n"
        ++ p ++ strBytes "\r\n"
      = (strBytes "--frame\r\n" ++ strBytes "Content-Type: image/jpeg\r\n\r\n")
        ++ (p ++ strBytes "\r\n") by simp [List.append_assoc]]
  rw [stripPrefixBytes_append]
  exact stripSuffixBytes_append (strBytes "\r\n") p

theorem streamRun_frameOk_readFail (ps : List (List Nat)) :
    streamRun (ps.map LoopEvent.frameOk ++ [LoopEvent.readFail])
      = (ps.map frameChunk, 1) := by
  induction ps with
  | nil => rfl
  | cons p ps ih => simp [streamRun, ih]

/-! Claim theorems. -/

/-- C1: the compliance verdict of the aggregation is true exactly when
every category of the fixed required set (helmet, safety_glasses, gloves)
has at least one raw detection whose normalized class name matches it, and
the conjunction over an empty required list is vacuously true. -/
theorem compliance_iff_every_required_detected (names : Nat → String)
    (ds : List RawDetection) :
    (checkCompliance (parseDetections names ds) = true ↔
      ∀ c ∈ required_ppe, ∃ b ∈ ds, normalizeName (names b.cls) = c.name)
    ∧ ∀ d : DetectedItems, checkComplianceOver [] d = true := by
  constructor
  · unfold checkCompliance checkComplianceOver
    rw [List.all_eq_true]
    constructor
    · intro h c hc
      have hd := h c hc
      rw [parse_detected] at hd
      obtain ⟨b, hb, hbc⟩ := List.any_eq_true.mp hd
      exact ⟨b, hb, (catOfName_eq_some_iff _ c).mp (of_decide_eq_true hbc)⟩
    · intro h c hc
      rw [parse_detected]
      obtain ⟨b, hb, hn⟩ := h c hc
      exact List.any_eq_true.mpr
        ⟨b, hb, decide_eq_true ((catOfName_eq_some_iff _ c).mpr hn)⟩
  · intro d
    rfl

/-- C2 counterexample: when the detector initializes but the camera fails
to open (`camera.isOpened()` false), `generate_frames` returns with zero
`camera.release()` calls — the claim's "released exactly once on every
exit path" fails on the acquisition-failure path (and likewise on the
detector-initialization-failure path, where no camera is even
constructed). -/
theorem open_failure_leaves_camera_unreleased :
    (generateFrames true false []).2 = 0 ∧ (generateFrames true false []).2 ≠ 1 := by
  decide

/-- C2 amended: the camera is released exactly once on every exit path
entered after the camera opened successfully (stream end, read failure,
per-frame pipeline exception, consumer cancellation); on the
detector-initialization-failure and open-failure paths the generator
returns with zero release calls. -/
theorem release_count_on_each_exit_path (initOk openOk : Bool)
    (events : List LoopEvent) :
    (generateFrames initOk openOk events).2
      = if initOk && openOk then 1 else 0 := by
  cases initOk <;> cases openOk <;>
    simp [generateFrames, streamRun_release]

/-- C3: when the first N-1 reads succeed (each producing an encoded frame)
and the read of iteration N fails, the loop yields exactly the N-1 chunks
in order and makes exactly one release call — including N = 1: no frames,
one release. -/
theorem read_failure_at_iteration_n (payloads : List (List Nat)) :
    generateFrames true true
        (payloads.map LoopEvent.frameOk ++ [LoopEvent.readFail])
      = (payloads.map frameChunk, 1) := by
  simp [generateFrames, streamRun_frameOk_readFail]

/-- C4 counterexample: the chunk `generate_frames` yields carries no
payload-length declaration at all — it has no "Content-Length" header,
and outside the payload the chunk contains no ASCII digit, so no length is
declared in any form (payload here is the two JPEG marker bytes 0xFF
0xD8). -/
theorem chunk_declares_no_payload_length :
    hasInfixBytes (strBytes "Content-Length") (frameChunk [255, 216]) = false
    ∧ ((frameChunk [255, 216]).all fun b => decide (b < 48 ∨ 57 < b)) = true := by
  decide

/-- C4 amended: for any sequence of K annotated-frame payloads the stream
is exactly the K boundary-delimited chunks in arrival order, each chunk
being the boundary marker, content-type declaration, blank separator,
payload and trailing separator; the payload is recovered exactly by
stripping that fixed structure (no payload-length declaration exists — the
chunk is delimited by its boundary structure alone). -/
theorem stream_chunks_count_order_payload (payloads : List (List Nat)) :
    (generateFrames true true
        (payloads.map LoopEvent.frameOk ++ [LoopEvent.readFail])).1
      = payloads.map frameChunk
    ∧ (generateFrames true true
        (payloads.map LoopEvent.frameOk ++ [LoopEvent.readFail])).1.length
      = payloads.length
    ∧ ∀ p, chunkPayload (frameChunk p) = some p := by
  refine ⟨?_, ?_, chunkPayload_frameChunk⟩ <;>
    simp [generateFrames, streamRun_frameOk_readFail]

/-- C5: for a category present in the result (it has boxes), the stored
best confidence is the maximum confidence among that category's boxes in
the frame: it is one of the box confidences and no box confidence exceeds
it. Because the update uses strict `>`, on ties the first maximal box's
confidence is the one kept (an equal value). -/
theorem best_confidence_is_max_of_category_boxes (names : Nat → String)
    (ds : List RawDetection) (c : PPECat)
    (hne : ((parseDetections names ds).get c).boxes ≠ [])
    (hnn : ∀ x ∈ ((parseDetections names ds).get c).boxes.map Prod.fst, 0 ≤ x) :
    ((parseDetections names ds).get c).confidence
        ∈ ((parseDetections names ds).get c).boxes.map Prod.fst
    ∧ ∀ x ∈ ((parseDetections names ds).get c).boxes.map Prod.fst,
        x ≤ ((parseDetections names ds).get c).confidence := by
  rw [parse_boxes_map_fst] at hnn ⊢
  have hconf : ((parseDetections names ds).get c).confidence
      = (matchConfs names c ds).foldl confStep 0 := by
    rw [parseDetections, parse_fold_confidence, emptyDetected_get]
    rfl
  have hmc : matchConfs names c ds ≠ [] := by
    intro h0
    apply hne
    have hmap := parse_boxes_map_fst names ds c
    rw [h0] at hmap
    exact List.map_eq_nil_iff.mp hmap
  obtain ⟨hmem, _, hall⟩ := confStep_foldl_spec (matchConfs names c ds) 0
  rw [hconf]
  refine ⟨?_, fun x hx => hall x hx⟩
  rcases hmem with h0 | hm
  · obtain ⟨y, hy⟩ := List.exists_mem_of_ne_nil _ hmc
    have h1 : y ≤ 0 := h0 ▸ hall y hy
    have h2 : 0 ≤ y := hnn y hy
    rw [h0, ← le_antisymm h1 h2]
    exact hy
  · exact hm

/-- C5 witness: the spec's example — three helmet boxes with confidences
0.3, 0.81, 0.5 give best confidence 0.81, the maximum. -/
theorem best_confidence_is_max_witness :
    ((parseDetections exNames1 exDs1).get .helmet).boxes ≠ []
    ∧ ((parseDetections exNames1 exDs1).get .helmet).confidence = q081
    ∧ (((parseDetections exNames1 exDs1).get .helmet).confidence
        ∈ ((parseDetections exNames1 exDs1).get .helmet).boxes.map Prod.fst
      ∧ ∀ x ∈ ((parseDetections exNames1 exDs1).get .helmet).boxes.map Prod.fst,
          x ≤ ((parseDetections exNames1 exDs1).get .helmet).confidence) :=
  ⟨by decide, by decide,
    best_confidence_is_max_of_category_boxes exNames1 exDs1 .helmet
      (by decide) (by decide)⟩

/-- C6: evaluation of `annotate_frame` at a compliance record with every
category undetected and no boxes. The box loops draw nothing and the
banner rectangle is drawn on the copy, but the banner text then reads
`cv2.FONT_HERSHEY_BOLD` — an attribute OpenCV's `cv2` module does not
export — so the call raises `AttributeError` instead of returning the
banner-annotated image: the code contradicts the claim that the annotator
never raises on an empty detection set. -/
theorem annotate_empty_detections_raises :
    annotate_frame exStore 0 (detect (fun _ => "person") [])
      = ([exImg, ⟨480, 640, 7, [DrawOp.rect 0 0 640 60 (0, 0, 255) (-1)]⟩],
         .error (.attributeError "FONT_HERSHEY_BOLD")) := by
  rfl

/-- C7 counterexample: even on a well-formed nonempty detection record
(one helmet box at confidence 0.9), `annotate_frame` does not return a new
image — it raises `AttributeError` on the nonexistent
`cv2.FONT_HERSHEY_BOLD`, so "returns a new image" fails. -/
theorem annotate_raises_instead_of_returning :
    ((annotate_frame exStore 0 (detect exNames1 exDsHelmet)).2).isOk = false
    ∧ (annotate_frame exStore 0 (detect exNames1 exDsHelmet)).2
        = .error (.attributeError "FONT_HERSHEY_BOLD") := by
  exact ⟨rfl, rfl⟩

/-- C7 amended: `annotate_frame` never mutates the input frame's buffer —
all drawing happens on a fresh copy appended to the store, so the input
buffer is byte-for-byte unchanged by the call; exactly one new buffer is
allocated; but instead of returning the new image the call raises
`AttributeError` on `cv2.FONT_HERSHEY_BOLD`. -/
theorem annotate_never_mutates_input_buffer (s : Store) (i : Nat)
    (res : DetectionResults) (h : i < s.length) :
    (annotate_frame s i res).1[i]? = s[i]?
    ∧ (annotate_frame s i res).1.length = s.length + 1
    ∧ (annotate_frame s i res).2 = .error (.attributeError "FONT_HERSHEY_BOLD") := by
  have hne : i ≠ s.length := by omega
  obtain ⟨hc1, hc2, hc3⟩ := drawCategories_spec res.detected_items
    [.helmet, .safety_glasses, .gloves] (s ++ [storeGet s i]) s.length
  simp only [annotate_frame]
  rcases hdc : drawCategories res.detected_items [.helmet, .safety_glasses, .gloves]
      (s ++ [storeGet s i]) s.length with ⟨s2, e2⟩
  rw [hdc] at hc1 hc2 hc3
  simp only at hc1 hc2
  subst hc1
  refine ⟨?_, ?_, rfl⟩
  · show (drawOn s2 s.length _)[i]? = s[i]?
    rw [drawOn_getElem_ne _ _ _ _ hne, hc3 i hne, List.getElem?_append, if_pos h]
  · show (drawOn s2 s.length _).length = s.length + 1
    rw [drawOn_length, hc2]
    simp

/-- C7 witness: the input-buffer-preservation theorem applied to a
concrete 200x100 buffer and an empty detection record. -/
theorem annotate_never_mutates_input_buffer_witness :
    0 < exStore2.length
    ∧ ((annotate_frame exStore2 0 (detect (fun _ => "gloves") [])).1[0]?
        = exStore2[0]?
      ∧ (annotate_frame exStore2 0 (detect (fun _ => "gloves") [])).1.length
        = exStore2.length + 1
      ∧ (annotate_frame exStore2 0 (detect (fun _ => "gloves") [])).2
        = .error (.attributeError "FONT_HERSHEY_BOLD")) :=
  ⟨by decide,
    annotate_never_mutates_input_buffer exStore2 0 (detect (fun _ => "gloves") [])
      (by decide)⟩

/-- C8: the missing-items list is exactly the required categories without
a matching detection, always in the fixed configured order
helmet, safety_glasses, gloves, and it is unchanged under any permutation
of the detection arrival order. -/
theorem missing_items_fixed_order (names : Nat → String)
    (ds ds' : List RawDetection) (h : ds.Perm ds') :
    getMissingItems (parseDetections names ds)
      = required_ppe.filter
          (fun c => !(ds.any fun b => decide (normalizeName (names b.cls) = c.name)))
    ∧ getMissingItems (parseDetections names ds')
      = getMissingItems (parseDetections names ds) := by
  have key : ∀ l : List RawDetection, getMissingItems (parseDetections names l)
      = required_ppe.filter
          (fun c => !(l.any fun b => decide (normalizeName (names b.cls) = c.name))) := by
    intro l
    unfold getMissingItems
    apply List.filter_congr
    intro c _
    rw [parse_detected]
    rw [show (fun b => decide (boxCat names b = some c))
        = (fun b => decide (normalizeName (names b.cls) = c.name)) from
      funext fun b => decide_eq_decide.mpr (catOfName_eq_some_iff _ c)]
  refine ⟨key ds, ?_⟩
  rw [key ds, key ds']
  apply List.filter_congr
  intro c _
  congr 1
  rw [Bool.eq_iff_iff, List.any_eq_true, List.any_eq_true]
  constructor
  · rintro ⟨b, hb, hf⟩
    exact ⟨b, h.mem_iff.mpr hb, hf⟩
  · rintro ⟨b, hb, hf⟩
    exact ⟨b, h.mem_iff.mp hb, hf⟩

/-- C8 witness: detections arriving gloves-then-helmet and
helmet-then-gloves both leave the missing list `[safety_glasses]`, the
fixed configured order, not discovery order. -/
theorem missing_items_fixed_order_witness :
    exDs2.Perm exDs2r
    ∧ getMissingItems (parseDetections exNames2 exDs2) = [PPECat.safety_glasses]
    ∧ getMissingItems (parseDetections exNames2 exDs2r)
      = getMissingItems (parseDetections exNames2 exDs2) :=
  ⟨List.Perm.swap _ _ _, by decide,
    (missing_items_fixed_order exNames2 exDs2 exDs2r (List.Perm.swap _ _ _)).2⟩

/-- C9 counterexample: constructing the detector with the out-of-range
confidence threshold 1.5 (model file present) succeeds — the value is
stored unvalidated and no ConfigurationInvalid error is raised, contrary
to the claim that such a configuration is rejected at construction
time. -/
theorem out_of_range_threshold_accepted :
    PPEDetector.init true "data/models/best.pt" q15 "cpu"
      = .ok ⟨"data/models/best.pt", q15, "cpu", required_ppe⟩
    ∧ ¬(q15 ≤ 1) :=
  ⟨rfl, by decide⟩

/-- C9 amended: `PPEDetector.__init__` validates only the model path:
with the model file present it stores any confidence threshold unchecked
and never raises a configuration error; with the model file absent it
raises FileNotFoundError; the required set is hardcoded to the fixed
nonempty three-category list, so an empty required set cannot arise. -/
theorem init_validates_only_model_path (path dev : String) (t : ℚ) :
    PPEDetector.init true path t dev = .ok ⟨path, t, dev, required_ppe⟩
    ∧ PPEDetector.init false path t dev = .error (.fileNotFound path)
    ∧ required_ppe ≠ [] :=
  ⟨rfl, rfl, by decide⟩

/-- C10: on a camera whose capture was never started (`cap is None`),
`read` returns `(False, None)` without consulting any underlying handle,
and `release` returns having issued no release call — both total on the
unstarted state. -/
theorem unstarted_camera_read_release_total (capRead : Nat → Bool × Option Nat)
    (cam : Camera) (h : cam.cap = none) :
    cam.read capRead = (false, none) ∧ cam.release = [] := by
  unfold Camera.read Camera.release
  rw [h]
  exact ⟨rfl, rfl⟩

/-- C10 witness: the unstarted-camera theorem at the constructor defaults
(source 0, 640x480, 30 fps, `cap = None`). -/
theorem unstarted_camera_read_release_total_witness :
    exCam.cap = none
    ∧ (exCam.read exCapRead = (false, none) ∧ exCam.release = []) :=
  ⟨rfl, unstarted_camera_read_release_total exCapRead exCam rfl⟩

end PPE
